import Mathlib

/-!
Shallow embedding of the real-time call-session engine of sonic-prism-core
(PLMB template and the jamesonplumbing client), covering:

* `StreamingSession` state and its operations
  (src/client_templates/PLMB_TEMPLATE/session.py);
* the Twilio outbound audio pacer `send_audio_twilio_media_stream`
  (src/client_templates/PLMB_TEMPLATE/main.py);
* the `AudioManager` in-memory cache
  (src/client_templates/PLMB_TEMPLATE/audio_manager.py);
* the `CallRecorder` dual-stream recording buffers and merge
  (src/clients/au/plmb/jamesonplumbing/call_recording.py).

Wall-clock times (Python `time.time()` floats) are modelled as rationals;
byte strings are modelled as `List Nat`.  Python truthiness of an optional
timestamp (`None` and `0.0` are falsy) is modelled explicitly.
-/

namespace SonicPrism

/- Constants from src/client_templates/PLMB_TEMPLATE/config.py (class Config). -/
namespace Config

def SILENCE_THRESHOLD_BASE : ℚ := 1.5

def SILENCE_THRESHOLD_AFTER_QUESTION : ℚ := 3.0

def CALL_TIMEOUT : ℚ := 300

def PAYMENT_TIMEOUT : ℚ := 600

end Config

/-- Value of `self.last_ai_response_type`: `"question"` or `"statement"`
(`None` is modelled by wrapping in `Option`). -/
inductive AIRespType where
  | question
  | statement
deriving DecidableEq, Repr

/-- The fields of `StreamingSession` (session.py, `__init__`) that the
turn-detection, timeout and session-variable operations read or write. -/
structure Session where
  accumulated_text : String
  last_activity_time : Option ℚ
  last_user_activity : ℚ
  silence_threshold : ℚ
  question_asked_time : Option ℚ
  last_ai_response_type : Option AIRespType
  is_processing : Bool
  transcript_ready : Bool
  completed_transcript : Option String
  is_ai_speaking : Bool
  ai_speech_start_time : Option ℚ
  payment_link_sent : Bool
  payment_link_time : Option ℚ
  call_timeout : ℚ
  payment_timeout : ℚ
  session_variables : List (String × String)
deriving DecidableEq, Repr

/-- `StreamingSession.__init__` at creation time `t0`: the initial values of
the modelled fields (session.py lines 59-96). -/
def initSession (t0 : ℚ) : Session where
  accumulated_text := ""
  last_activity_time := none
  last_user_activity := t0
  silence_threshold := Config.SILENCE_THRESHOLD_BASE
  question_asked_time := none
  last_ai_response_type := none
  is_processing := false
  transcript_ready := false
  completed_transcript := none
  is_ai_speaking := false
  ai_speech_start_time := none
  payment_link_sent := false
  payment_link_time := none
  call_timeout := Config.CALL_TIMEOUT
  payment_timeout := Config.PAYMENT_TIMEOUT
  session_variables := []

/-- Python truthiness of an optional float timestamp: `None` and `0.0` are
falsy, every other value truthy. -/
def timeTruthy : Option ℚ → Bool
  | none => false
  | some t => t ≠ 0

/-- Python `str.strip()` with no argument, on the character list: remove
leading and trailing whitespace. -/
def pyStrip (s : String) : String :=
  ⟨((s.data.dropWhile Char.isWhitespace).reverse.dropWhile Char.isWhitespace).reverse⟩

/-- Accumulator-passing splitter implementing Python `str.split()` with no
argument: split on runs of whitespace and drop empty fragments.  `acc` holds
the current word reversed. -/
def wordsAux : List Char → List Char → List String
  | [], acc => if acc.isEmpty then [] else [⟨acc.reverse⟩]
  | c :: cs, acc =>
    if c.isWhitespace then
      if acc.isEmpty then wordsAux cs [] else (⟨acc.reverse⟩ : String) :: wordsAux cs []
    else wordsAux cs (c :: acc)

/-- The word list `text.split()` of Python. -/
def pyWords (s : String) : List String :=
  wordsAux s.data []

/-- `StreamingSession.on_deepgram_message` (session.py lines 105-140), for a
fragment with transcript `sentence` and finality `is_final`, processed at
wall-clock time `now`.  Mirrors the code: an early return while
`is_processing`; nothing happens for a whitespace-only sentence; activity
timestamps are refreshed for any non-empty sentence; on a final fragment the
sentence is appended to `accumulated_text` and the silence threshold is
recomputed only when the last AI utterance was a question with a truthy
`question_asked_time`. -/
def on_deepgram_message (now : ℚ) (sentence : String) (is_final : Bool)
    (s : Session) : Session :=
  if s.is_processing then s
  else if pyStrip sentence = "" then s
  else
    let s1 := { s with last_user_activity := now, last_activity_time := some now }
    if is_final then
      let s2 := { s1 with accumulated_text :=
        if s1.accumulated_text = "" then sentence
        else s1.accumulated_text ++ " " ++ sentence }
      if s2.last_ai_response_type = some .question ∧ timeTruthy s2.question_asked_time then
        match s2.question_asked_time with
        | some tq =>
          if now - tq < 10 then
            { s2 with silence_threshold := Config.SILENCE_THRESHOLD_AFTER_QUESTION }
          else
            { s2 with silence_threshold := Config.SILENCE_THRESHOLD_BASE }
        | none => s2
      else s2
    else s1

/-- `StreamingSession.mark_ai_question` (session.py lines 313-316). -/
def mark_ai_question (now : ℚ) (s : Session) : Session :=
  { s with last_ai_response_type := some .question, question_asked_time := some now }

/-- `StreamingSession.mark_ai_statement` (session.py lines 319-322). -/
def mark_ai_statement (s : Session) : Session :=
  { s with last_ai_response_type := some .statement, question_asked_time := none }

/-- `StreamingSession.check_for_completion` (session.py lines 201-219) at
wall-clock time `now`; returns the boolean result together with the updated
session.  The guard mirrors Python truthiness: empty `accumulated_text`,
falsy `last_activity_time`, or `is_processing` short-circuit to `False`. -/
def check_for_completion (now : ℚ) (s : Session) : Bool × Session :=
  if s.accumulated_text = "" ∨ ¬ timeTruthy s.last_activity_time ∨ s.is_processing then
    (false, s)
  else
    match s.last_activity_time with
    | none => (false, s)
    | some t =>
      if s.silence_threshold ≤ now - t then
        if 2 ≤ (pyWords s.accumulated_text).length then
          (true, { s with
            completed_transcript := some s.accumulated_text,
            transcript_ready := true,
            accumulated_text := "",
            last_activity_time := none })
        else (false, s)
      else (false, s)

/-- `StreamingSession.check_timeout` (session.py lines 235-250) at wall-clock
time `now`. -/
def check_timeout (now : ℚ) (s : Session) : Bool :=
  let threshold := if s.payment_link_sent then s.payment_timeout else s.call_timeout
  decide (threshold < now - s.last_user_activity)

/-- `StreamingSession.mark_payment_link_sent` (session.py lines 252-256). -/
def mark_payment_link_sent (now : ℚ) (s : Session) : Session :=
  { s with payment_link_sent := true, payment_link_time := some now }

/-- `StreamingSession.update_session_variable` (session.py lines 263-270):
when `name` is already a key of `session_variables`, overwrite its value and
return `True`; otherwise return `False` and change nothing.  The Python dict
is modelled as an association list updated in place. -/
def update_session_variable (name value : String) (s : Session) : Bool × Session :=
  if (s.session_variables.lookup name).isSome then
    (true, { s with session_variables :=
      s.session_variables.map (fun p => if p.1 = name then (p.1, value) else p) })
  else
    (false, s)

/- Outbound audio pacer: `send_audio_twilio_media_stream`
(src/client_templates/PLMB_TEMPLATE/main.py lines 182-256).  The μ-law byte
string is a `List Nat`; a sent frame is the byte chunk it carries (the
base64/JSON envelope adds nothing to the byte-accounting claims).  The
interruption flag `session.stop_audio_streaming` is sampled once before each
full-chunk send; `interrupt i` is its value at the check preceding 0-based
full chunk `i`. -/

def CHUNK_SIZE : Nat := 8000

/-- The slice `ulaw_data[i*CHUNK_SIZE : (i+1)*CHUNK_SIZE]` taken by loop
iteration `i` of `send_audio_twilio_media_stream`. -/
def chunkAt (data : List Nat) (i : Nat) : List Nat :=
  (data.drop (i * CHUNK_SIZE)).take CHUNK_SIZE

/-- The `for i in range(total_chunks)` loop of
`send_audio_twilio_media_stream` (main.py lines 209-235), started at
iteration `i` with `fuel` iterations remaining: returns the frames sent and
whether the loop exited early via the interruption `return`. -/
def sendFullChunks (interrupt : Nat → Bool) (data : List Nat) :
    Nat → Nat → List (List Nat) × Bool
  | _, 0 => ([], false)
  | i, fuel + 1 =>
    if interrupt i then ([], true)
    else
      let rest := sendFullChunks interrupt data (i + 1) fuel
      (chunkAt data i :: rest.1, rest.2)

/-- `send_audio_twilio_media_stream` (main.py lines 205-251): the sequence of
frames written to the websocket.  Full chunks are sent by the guarded loop;
the trailing remainder (lines 237-251) is sent only when the loop ran to
completion and `total_chunks * CHUNK_SIZE < len(ulaw_data)`. -/
def send_audio_twilio_media_stream (interrupt : Nat → Bool) (data : List Nat) :
    List (List Nat) :=
  let total := data.length / CHUNK_SIZE
  let res := sendFullChunks interrupt data 0 total
  if res.2 then res.1
  else if total * CHUNK_SIZE < data.length then
    res.1 ++ [data.drop (total * CHUNK_SIZE)]
  else res.1

/- Call recording: `CallRecorder`
(src/clients/au/plmb/jamesonplumbing/call_recording.py). -/

/-- One appended audio segment: arrival timestamp and raw bytes
(`{'data': ..., 'timestamp': ...}`). -/
structure Segment where
  timestamp : ℚ
  data : List Nat
deriving DecidableEq, Repr

/-- One entry of `CallRecorder.active_recordings`
(call_recording.py lines 47-54). -/
structure RecordingData where
  start_time : ℚ
  user_audio : List Segment
  ai_audio : List Segment
  active : Bool
  end_time : Option ℚ
deriving DecidableEq, Repr

/-- The `CallRecorder` state: the map of active recordings plus the
background processing queue fed by `stop_recording`. -/
structure RecorderState where
  active_recordings : String → Option RecordingData
  audio_queue : List RecordingData

/-- Pointwise update of the `active_recordings` map (Python dict assignment
or deletion at one key). -/
def setRecording (m : String → Option RecordingData) (key : String)
    (v : Option RecordingData) : String → Option RecordingData :=
  fun k => if k = key then v else m k

/-- `CallRecorder.start_recording` (call_recording.py lines 41-58). -/
def start_recording (call_sid : String) (now : ℚ) (st : RecorderState) :
    Bool × RecorderState :=
  match st.active_recordings call_sid with
  | some _ => (false, st)
  | none =>
    let rd : RecordingData :=
      { start_time := now, user_audio := [], ai_audio := [],
        active := true, end_time := none }
    (true, { st with active_recordings := setRecording st.active_recordings call_sid (some rd) })

/-- `CallRecorder.stop_recording` (call_recording.py lines 60-77): deactivate,
enqueue for finalization, delete from `active_recordings`. -/
def stop_recording (call_sid : String) (now : ℚ) (st : RecorderState) :
    Bool × RecorderState :=
  match st.active_recordings call_sid with
  | none => (false, st)
  | some rd =>
    (true,
      { active_recordings := setRecording st.active_recordings call_sid none,
        audio_queue := st.audio_queue ++ [{ rd with active := false, end_time := some now }] })

/-- `CallRecorder.add_user_audio` (call_recording.py lines 79-85): append only
when an active recording exists for `call_sid`. -/
def add_user_audio (call_sid : String) (audio_data : List Nat) (now : ℚ)
    (st : RecorderState) : RecorderState :=
  match st.active_recordings call_sid with
  | some rd =>
    if rd.active then
      let rd1 := { rd with user_audio := rd.user_audio ++ [⟨now, audio_data⟩] }
      { st with active_recordings := setRecording st.active_recordings call_sid (some rd1) }
    else st
  | none => st

/-- `CallRecorder.add_ai_audio` (call_recording.py lines 87-93). -/
def add_ai_audio (call_sid : String) (audio_data : List Nat) (now : ℚ)
    (st : RecorderState) : RecorderState :=
  match st.active_recordings call_sid with
  | some rd =>
    if rd.active then
      let rd1 := { rd with ai_audio := rd.ai_audio ++ [⟨now, audio_data⟩] }
      { st with active_recordings := setRecording st.active_recordings call_sid (some rd1) }
    else st
  | none => st

/-- The timestamp order used by the merge:
`key=lambda x: x['timestamp']` (call_recording.py line 158). -/
def segLE (a b : Segment) : Prop :=
  a.timestamp ≤ b.timestamp

instance : DecidableRel segLE :=
  fun a b => inferInstanceAs (Decidable (a.timestamp ≤ b.timestamp))

/-- Ordered insertion realizing Python's stable `list.sort`: since
`sortSegments` inserts each element into the sorted tail of the original
list, placing it before every element of equal timestamp keeps original
order among ties. -/
def insertSegment (x : Segment) : List Segment → List Segment
  | [] => [x]
  | y :: ys => if x.timestamp ≤ y.timestamp then x :: y :: ys
               else y :: insertSegment x ys

/-- Stable sort by timestamp (semantics of `list.sort` with a timestamp key,
call_recording.py line 158). -/
def sortSegments : List Segment → List Segment
  | [] => []
  | x :: xs => insertSegment x (sortSegments xs)

/-- The merged segment sequence built by `CallRecorder._combine_audio_streams`
(call_recording.py lines 136-158): user segments, then AI segments, sorted
stably by timestamp. -/
def combinedSegments (rd : RecordingData) : List Segment :=
  sortSegments (rd.user_audio ++ rd.ai_audio)

/-- `CallRecorder._combine_audio_streams` (call_recording.py lines 136-165):
concatenate the raw bytes of the merged sequence in order. -/
def combine_audio_streams (rd : RecordingData) : List Nat :=
  ((combinedSegments rd).map Segment.data).flatten

/- Audio cache: `AudioManager`
(src/client_templates/PLMB_TEMPLATE/audio_manager.py).  The disk is a map
`fs : String → Option (List Nat)` from filename to byte content; the
`audio_snippets.json` manifest is a list of categories, each a list of
`(key, value)` string pairs. -/

/-- The `audio_snippets.json` manifest: category name with its entries. -/
structure Manifest where
  categories : List (String × List (String × String))

/-- Fuel-indexed body of Python `str.replace(old, new)`: replace each
leftmost non-overlapping occurrence of `pat` by `rep`.  The fuel (the length
of the scanned list) bounds the recursion; for a non-empty `pat` every step
consumes at least one character, so the scan always completes. -/
def replaceAux (pat rep : List Char) : Nat → List Char → List Char
  | 0, cs => cs
  | _ + 1, [] => []
  | fuel + 1, c :: cs =>
    if pat.isPrefixOf (c :: cs) then
      rep ++ replaceAux pat rep fuel ((c :: cs).drop pat.length)
    else
      c :: replaceAux pat rep fuel cs

/-- Python `s.replace(old, new)`. -/
def pyReplace (s old new : String) : String :=
  ⟨replaceAux old.data new.data s.data.length s.data⟩

/-- Filename conversion `filename.replace('.mp3', '.ulaw')`
(audio_manager.py lines 56, 61). -/
def toUlawName (filename : String) : String :=
  pyReplace filename ".mp3" ".ulaw"

/-- Filename conversion `ulaw_filename.replace('.ulaw', '.mp3')`
(audio_manager.py line 78). -/
def toMp3Name (ulaw_filename : String) : String :=
  pyReplace ulaw_filename ".ulaw" ".mp3"

/-- The `all_files` set built at audio_manager.py lines 51-62: every filename
referenced by the manifest, converted to its `.ulaw` form.  For the category
`"quick_responses"` the filenames are the entry values; for every other
category they are the entry keys.  (The Python `set` is modelled as a list;
duplicate entries only repeat idempotent loads.) -/
def allManifestFiles (m : Manifest) : List String :=
  (m.categories.map (fun cat =>
    if cat.1 = "quick_responses" then cat.2.map (fun e => toUlawName e.2)
    else cat.2.map (fun e => toUlawName e.1))).flatten

/-- The `AudioManager` fields driving cache behaviour. -/
structure AudioManagerState where
  audio_snippets : Manifest
  cached_files : List String
  memory_cache : String → Option (List Nat)
  cache_loaded : Bool

/-- Pointwise insertion into the memory cache
(`self.memory_cache[mp3_filename] = ulaw_data`). -/
def setCache (mc : String → Option (List Nat)) (key : String) (v : List Nat) :
    String → Option (List Nat) :=
  fun k => if k = key then some v else mc k

/-- The body of the load loop at audio_manager.py lines 69-90: read each
`.ulaw` file that exists and store it under the original `.mp3` key. -/
def loadFiles (fs : String → Option (List Nat)) (st : AudioManagerState) :
    List String → AudioManagerState
  | [] => st
  | u :: rest =>
    let st1 :=
      match fs u with
      | some dataBytes =>
        { st with
          memory_cache := setCache st.memory_cache (toMp3Name u) dataBytes,
          cached_files := toMp3Name u :: st.cached_files }
      | none => st
    loadFiles fs st1 rest

/-- `AudioManager._load_all_files_into_memory` (audio_manager.py lines
40-99): a no-op when `_cache_loaded` is already set; otherwise loads every
manifest-referenced `.ulaw` payload and sets `_cache_loaded`. -/
def load_all_files_into_memory (fs : String → Option (List Nat))
    (st : AudioManagerState) : AudioManagerState :=
  if st.cache_loaded then st
  else
    let st1 := loadFiles fs st (allManifestFiles st.audio_snippets)
    { st1 with cache_loaded := true }

/-- `AudioManager.__init__` (audio_manager.py lines 15-24) with the manifest
already parsed: empty cache, `_cache_loaded = False`, then the eager load. -/
def initAudioManager (fs : String → Option (List Nat)) (m : Manifest) :
    AudioManagerState :=
  load_all_files_into_memory fs
    { audio_snippets := m, cached_files := [], memory_cache := fun _ => none,
      cache_loaded := false }

/-- `AudioManager.clear_memory_cache` (audio_manager.py lines 201-208):
empties `memory_cache` and nothing else — in particular `_cache_loaded`
keeps its value. -/
def clear_memory_cache (st : AudioManagerState) : AudioManagerState :=
  { st with memory_cache := fun _ => none }

/-- `AudioManager.reload_library` (audio_manager.py lines 276-280): loads
only when `_cache_loaded` is still unset. -/
def reload_library (fs : String → Option (List Nat)) (st : AudioManagerState) :
    AudioManagerState :=
  if st.cache_loaded then st
  else load_all_files_into_memory fs st

/-- The HTTP responses `serve_audio_file` can build: the 200 response whose
body is the cached bytes, or the 404 response (audio_manager.py lines
132-150). -/
inductive ServeResponse where
  | ok (body : List Nat)
  | notFound
deriving DecidableEq, Repr

/-- `AudioManager.serve_audio_file` (audio_manager.py lines 132-150). -/
def serve_audio_file (st : AudioManagerState) (filename : String) : ServeResponse :=
  match st.memory_cache filename with
  | some ulaw_data => .ok ulaw_data
  | none => .notFound

/- Concrete fixtures used by counterexamples and witnesses. -/

/-- A one-entry manifest: category `"misc"` maps `"a.mp3"` to its transcript. -/
def exampleManifest : Manifest :=
  ⟨[("misc", [("a.mp3", "hi")])]⟩

/-- A disk with exactly the file `a.ulaw` holding bytes `[1, 2, 3]`. -/
def exampleFs : String → Option (List Nat) :=
  fun u => if u = "a.ulaw" then some [1, 2, 3] else none

/-- A finished recording with inbound (user) segments at timestamps 1, 3, 5
and outbound (AI) segments at timestamps 2, 4. -/
def exampleRecording : RecordingData where
  start_time := 0
  user_audio := [⟨1, [10]⟩, ⟨3, [30]⟩, ⟨5, [50]⟩]
  ai_audio := [⟨2, [20]⟩, ⟨4, [40]⟩]
  active := false
  end_time := none

/-- An empty recorder: no active recordings, empty finalization queue. -/
def emptyRecorder : RecorderState where
  active_recordings := fun _ => none
  audio_queue := []

/-- A session holding a one-word transcript with last activity at t = 5. -/
def oneWordSession : Session :=
  { initSession 0 with accumulated_text := "hello", last_activity_time := some 5 }

/- Arithmetic facts over ℚ used as explicit terms when witnesses discharge
hypotheses (kernel reduction is unavailable for `Rat` subtraction). -/

lemma elapsed_gap_lower : (300 : ℚ) < 400 - 0 := by norm_num

lemma elapsed_gap_upper : (400 : ℚ) - 0 ≤ 600 := by norm_num

/-- C1 counterexample step: on the trace `mark_ai_question` at t = 1 followed
by a final fragment at t = 2, the recency test passes, so the fragment sets
the extended threshold. -/
lemma threshold_after_question_fragment :
    (on_deepgram_message 2 "hello there" true
        (mark_ai_question 1 (initSession 0))).silence_threshold
      = Config.SILENCE_THRESHOLD_AFTER_QUESTION := by
  have h10 : ((2 : ℚ) - 1 < 10) = True := by norm_num
  simp +decide only [on_deepgram_message, mark_ai_question, initSession,
    timeTruthy, h10, if_true]
  simp

/- ===================== claim theorems ===================== -/

/-- C1 counterexample: after the AI's question (t = 1) and a user final
fragment (t = 2) set the threshold to T_question, `mark_ai_statement` leaves
it there — the session's most recent AI utterance is a statement, yet the
active silence threshold is not T_base, contradicting the claim that after a
statement the threshold equals T_base. -/
theorem stale_threshold_after_statement :
    (mark_ai_statement (on_deepgram_message 2 "hello there" true
        (mark_ai_question 1 (initSession 0)))).last_ai_response_type
      = some AIRespType.statement
    ∧ (mark_ai_statement (on_deepgram_message 2 "hello there" true
        (mark_ai_question 1 (initSession 0)))).silence_threshold
      ≠ Config.SILENCE_THRESHOLD_BASE := by
  refine ⟨rfl, ?_⟩
  have hth : (mark_ai_statement (on_deepgram_message 2 "hello there" true
      (mark_ai_question 1 (initSession 0)))).silence_threshold
      = Config.SILENCE_THRESHOLD_AFTER_QUESTION := by
    simpa [mark_ai_statement] using threshold_after_question_fragment
  rw [hth]
  norm_num [Config.SILENCE_THRESHOLD_AFTER_QUESTION, Config.SILENCE_THRESHOLD_BASE]

/-- C1 (amended): the silence threshold is recomputed only while a final
fragment is processed and only when the last AI utterance is a question with
a truthy ask time — then it becomes T_question for recency < 10 s and T_base
otherwise.  In every other case the threshold keeps its previous value:
`mark_ai_statement` and `mark_ai_question` never touch it, a non-final
fragment never touches it, a fragment arriving while `is_processing` or one
that is whitespace-only never touches it, and a processed final fragment
leaves it untouched whenever the question-recency condition fails — so a
stale T_question persists after a statement. -/
theorem silence_threshold_update_policy (now : ℚ) (sentence : String)
    (is_final : Bool) (s : Session) :
    (mark_ai_statement s).silence_threshold = s.silence_threshold
    ∧ (mark_ai_question now s).silence_threshold = s.silence_threshold
    ∧ (on_deepgram_message now sentence false s).silence_threshold
        = s.silence_threshold
    ∧ (s.is_processing = true →
        (on_deepgram_message now sentence is_final s).silence_threshold
          = s.silence_threshold)
    ∧ (pyStrip sentence = "" →
        (on_deepgram_message now sentence is_final s).silence_threshold
          = s.silence_threshold)
    ∧ (s.is_processing = false → pyStrip sentence ≠ "" →
        ∀ tq, s.last_ai_response_type = some AIRespType.question →
          s.question_asked_time = some tq → tq ≠ 0 →
          (on_deepgram_message now sentence true s).silence_threshold =
            (if now - tq < 10 then Config.SILENCE_THRESHOLD_AFTER_QUESTION
             else Config.SILENCE_THRESHOLD_BASE))
    ∧ (¬ (s.last_ai_response_type = some AIRespType.question
          ∧ timeTruthy s.question_asked_time = true) →
        (on_deepgram_message now sentence is_final s).silence_threshold =
          s.silence_threshold) := by
  refine ⟨rfl, rfl, ?_, ?_, ?_, ?_, ?_⟩
  · by_cases h1 : s.is_processing
    · simp [on_deepgram_message, h1]
    · by_cases h2 : pyStrip sentence = "" <;> simp [on_deepgram_message, h1, h2]
  · intro h1
    simp [on_deepgram_message, h1]
  · intro h2
    by_cases h1 : s.is_processing <;> simp [on_deepgram_message, h1, h2]
  · intro hp hs tq hq htq hnz
    simp only [on_deepgram_message, hp, hs, timeTruthy]
    simp [hq, htq, hnz]
    split <;> rfl
  · intro hcond
    simp only [on_deepgram_message, timeTruthy]
    by_cases h1 : s.is_processing <;> simp [h1]
    by_cases h2 : pyStrip sentence = "" <;> simp [h2]
    cases is_final <;> simp
    rcases hq : s.question_asked_time with _ | tq <;> simp [hq]
    by_cases hr : s.last_ai_response_type = some AIRespType.question <;> simp [hr]
    have : ¬ (tq ≠ 0) := by
      intro hnz
      exact hcond ⟨hr, by simp [hq, timeTruthy, hnz]⟩
    simp at this
    simp [this]

/-- C1 witness: the update rule applied on a concrete trace (question at
t = 1, fragment at t = 2). -/
theorem silence_threshold_update_policy_witness :
    pyStrip "hello there" ≠ "" ∧ (1 : ℚ) ≠ 0 ∧
    (on_deepgram_message 2 "hello there" true
        (mark_ai_question 1 (initSession 0))).silence_threshold
      = (if (2 : ℚ) - 1 < 10 then Config.SILENCE_THRESHOLD_AFTER_QUESTION
         else Config.SILENCE_THRESHOLD_BASE) :=
  ⟨by decide, by decide,
    (silence_threshold_update_policy 2 "hello there" true
        (mark_ai_question 1 (initSession 0))).2.2.2.2.2.1 rfl (by decide) 1 rfl rfl
      (by decide)⟩

/-- C5: with default timeouts, `check_timeout` is true iff the elapsed time
since last user activity exceeds 300 s while no payment link was sent, and
iff it exceeds 600 s after `mark_payment_link_sent`; hence for an elapsed
time strictly between the two bounds the verdict flips from true to false. -/
theorem check_timeout_payment_extension (s : Session) (now tm : ℚ)
    (hc : s.call_timeout = 300) (hp : s.payment_timeout = 600) :
    (s.payment_link_sent = false →
        (check_timeout now s = true ↔ 300 < now - s.last_user_activity))
    ∧ (check_timeout now (mark_payment_link_sent tm s) = true ↔
        600 < now - s.last_user_activity)
    ∧ (s.payment_link_sent = false →
        300 < now - s.last_user_activity →
        now - s.last_user_activity ≤ 600 →
        check_timeout now s = true ∧
          check_timeout now (mark_payment_link_sent tm s) = false) := by
  refine ⟨fun h => ?_, ?_, fun h h1 h2 => ⟨?_, ?_⟩⟩
  · simp [check_timeout, h, hc]
  · simp [check_timeout, mark_payment_link_sent, hp]
  · simp [check_timeout, h, hc, h1]
  · simp [check_timeout, mark_payment_link_sent, hp]
    linarith

/-- C5 witness: a fresh session with last activity at t = 0 and 400 s
elapsed: timed out before the payment link is marked, not after. -/
theorem check_timeout_payment_extension_witness :
    check_timeout 400 (initSession 0) = true
    ∧ check_timeout 400 (mark_payment_link_sent 50 (initSession 0)) = false :=
  (check_timeout_payment_extension (initSession 0) 400 50 rfl rfl).2.2 rfl
    elapsed_gap_lower elapsed_gap_upper

/-- C8: when the accumulated transcript has fewer than 2 words,
`check_for_completion` returns false and leaves the session unchanged — in
particular `completed_transcript` is not set and `transcript_ready` stays
false — no matter how large the elapsed silence is. -/
theorem no_completion_under_two_words (now : ℚ) (s : Session)
    (h : (pyWords s.accumulated_text).length < 2) :
    check_for_completion now s = (false, s) := by
  unfold check_for_completion
  split
  · rfl
  · split
    · rfl
    · split
      · split
        · omega
        · rfl
      · rfl

/-- C8 witness: a one-word transcript with 95 s of silence still does not
complete. -/
theorem no_completion_under_two_words_witness :
    (pyWords oneWordSession.accumulated_text).length < 2
    ∧ check_for_completion 100 oneWordSession = (false, oneWordSession) :=
  ⟨by decide, no_completion_under_two_words 100 oneWordSession (by decide)⟩

/-- C9: `update_session_variable` mutates the variable map only at existing
keys: for an absent name it returns false and leaves the session unchanged,
and in every case the key list of `session_variables` is exactly preserved. -/
theorem update_session_variable_spec (name value : String) (s : Session) :
    (s.session_variables.lookup name = none →
      update_session_variable name value s = (false, s))
    ∧ (update_session_variable name value s).2.session_variables.map Prod.fst
        = s.session_variables.map Prod.fst := by
  constructor
  · intro h
    simp [update_session_variable, h]
  · unfold update_session_variable
    split
    · simp only [List.map_map]
      apply List.map_congr_left
      intro p _
      by_cases hp : p.1 = name <;> simp [hp]
    · rfl

/-- C9 witness: updating the never-defined variable `"x"` on a fresh
session returns false and changes nothing. -/
theorem update_session_variable_spec_witness :
    ((initSession 0).session_variables.lookup "x" = none)
    ∧ update_session_variable "x" "v" (initSession 0) = (false, initSession 0) :=
  ⟨rfl, (update_session_variable_spec "x" "v" (initSession 0)).1 rfl⟩

/- Pacer loop lemmas. -/

lemma chunkAt_length (data : List Nat) (i : Nat) :
    (chunkAt data i).length = min CHUNK_SIZE (data.length - i * CHUNK_SIZE) := by
  simp [chunkAt]

lemma sendFullChunks_no_interrupt_snd (data : List Nat) :
    ∀ fuel i, (sendFullChunks (fun _ => false) data i fuel).2 = false := by
  intro fuel
  induction fuel with
  | zero => intro i; rfl
  | succ n ih => intro i; simp [sendFullChunks, ih (i + 1)]

lemma sendFullChunks_no_interrupt_length (data : List Nat) :
    ∀ fuel i, (sendFullChunks (fun _ => false) data i fuel).1.length = fuel := by
  intro fuel
  induction fuel with
  | zero => intro i; rfl
  | succ n ih => intro i; simp [sendFullChunks, ih (i + 1)]

lemma sendFullChunks_no_interrupt_flatten (data : List Nat) :
    ∀ fuel i, (sendFullChunks (fun _ => false) data i fuel).1.flatten
      = (data.drop (i * CHUNK_SIZE)).take (fuel * CHUNK_SIZE) := by
  intro fuel
  induction fuel with
  | zero => intro i; rfl
  | succ n ih =>
    intro i
    simp only [sendFullChunks, Bool.false_eq_true, if_false, List.flatten_cons]
    rw [ih (i + 1)]
    rw [show (n + 1) * CHUNK_SIZE = CHUNK_SIZE + n * CHUNK_SIZE from by ring,
      List.take_add]
    have hd : (data.drop (i * CHUNK_SIZE)).drop CHUNK_SIZE
        = data.drop ((i + 1) * CHUNK_SIZE) := by
      rw [List.drop_drop,
        show i * CHUNK_SIZE + CHUNK_SIZE = (i + 1) * CHUNK_SIZE from by ring]
    rw [hd]
    rfl

lemma sendFullChunks_no_interrupt_full (data : List Nat) :
    ∀ fuel i, (i + fuel) * CHUNK_SIZE ≤ data.length →
      (((sendFullChunks (fun _ => false) data i fuel).1.all
        fun f => f.length == CHUNK_SIZE) = true) := by
  intro fuel
  induction fuel with
  | zero => intro i _; rfl
  | succ n ih =>
    intro i hle
    simp only [sendFullChunks, Bool.false_eq_true, if_false, List.all_cons,
      Bool.and_eq_true, beq_iff_eq]
    constructor
    · rw [chunkAt_length]
      simp only [CHUNK_SIZE] at hle ⊢
      omega
    · exact ih (i + 1) (by simp only [CHUNK_SIZE] at hle ⊢; omega)

lemma sendFullChunks_interrupt_at (data : List Nat) (i : Nat) :
    ∀ fuel j, j ≤ i → i < j + fuel →
      (sendFullChunks (fun k => decide (i ≤ k)) data j fuel).2 = true
      ∧ (sendFullChunks (fun k => decide (i ≤ k)) data j fuel).1.length = i - j
      ∧ (sendFullChunks (fun k => decide (i ≤ k)) data j fuel).1.flatten
          = (data.drop (j * CHUNK_SIZE)).take ((i - j) * CHUNK_SIZE) := by
  intro fuel
  induction fuel with
  | zero => intro j h1 h2; omega
  | succ n ih =>
    intro j h1 h2
    by_cases hij : i ≤ j
    · have hji : j = i := le_antisymm h1 hij
      subst hji
      simp [sendFullChunks]
    · have hj : j < i := not_le.mp hij
      obtain ⟨hsnd, hlen, hflat⟩ := ih (j + 1) (by omega) (by omega)
      have hdec : decide (i ≤ j) = false := by simp [hij]
      simp only [sendFullChunks, hdec, Bool.false_eq_true, if_false,
        List.length_cons, List.flatten_cons]
      refine ⟨hsnd, by omega, ?_⟩
      rw [hflat]
      rw [show (i - j) * CHUNK_SIZE = CHUNK_SIZE + (i - j - 1) * CHUNK_SIZE from by
        simp only [CHUNK_SIZE]; omega]
      rw [List.take_add]
      have hd : (data.drop (j * CHUNK_SIZE)).drop CHUNK_SIZE
          = data.drop ((j + 1) * CHUNK_SIZE) := by
        rw [List.drop_drop,
          show j * CHUNK_SIZE + CHUNK_SIZE = (j + 1) * CHUNK_SIZE from by ring]
      rw [hd, show i - (j + 1) = i - j - 1 from by omega]
      rfl

/-- C4: absent interruption, the pacer sends exactly
`⌊L / 8000⌋` full 8000-byte chunks, one extra remainder frame iff
`L mod 8000 ≠ 0`, and the concatenation of all sent frames is exactly the
input — so the total bytes sent equal `L`. -/
theorem send_uninterrupted_spec (data : List Nat) :
    (send_audio_twilio_media_stream (fun _ => false) data).length
        = data.length / CHUNK_SIZE
          + (if data.length % CHUNK_SIZE = 0 then 0 else 1)
    ∧ (((send_audio_twilio_media_stream (fun _ => false) data).take
          (data.length / CHUNK_SIZE)).all fun f => f.length == CHUNK_SIZE) = true
    ∧ (send_audio_twilio_media_stream (fun _ => false) data).flatten = data := by
  have hsnd := sendFullChunks_no_interrupt_snd data (data.length / CHUNK_SIZE) 0
  have hlen := sendFullChunks_no_interrupt_length data (data.length / CHUNK_SIZE) 0
  have hflat := sendFullChunks_no_interrupt_flatten data (data.length / CHUNK_SIZE) 0
  have hfull := sendFullChunks_no_interrupt_full data (data.length / CHUNK_SIZE) 0
    (by simp only [CHUNK_SIZE]; omega)
  unfold send_audio_twilio_media_stream
  simp only [hsnd, Bool.false_eq_true, if_false]
  by_cases hmod : data.length % CHUNK_SIZE = 0
  · have heq : data.length / CHUNK_SIZE * CHUNK_SIZE = data.length := by
      simp only [CHUNK_SIZE] at hmod ⊢
      omega
    rw [if_neg (by omega)]
    refine ⟨by rw [hlen]; simp [hmod], ?_, ?_⟩
    · rw [List.take_of_length_le (le_of_eq hlen)]
      exact hfull
    · rw [hflat]
      simp [heq]
  · have hlt : data.length / CHUNK_SIZE * CHUNK_SIZE < data.length := by
      simp only [CHUNK_SIZE] at hmod ⊢
      omega
    rw [if_pos hlt]
    refine ⟨by simp [hlen, hmod], ?_, ?_⟩
    · rw [List.take_append_of_le_length (le_of_eq hlen.symm),
        List.take_of_length_le (le_of_eq hlen)]
      exact hfull
    · rw [List.flatten_append, hflat]
      simp [List.take_append_drop]

/-- C3: when the interruption flag becomes set at the check preceding
(0-based) full chunk `i`, with `i < ⌊L / 8000⌋`, the pacer sends exactly the
frames `0 .. i-1` — no later full chunk and no trailing partial chunk — and
the bytes sent are precisely the first `i × 8000` bytes of the input. -/
theorem send_interrupted_spec (data : List Nat) (i : Nat)
    (h : i < data.length / CHUNK_SIZE) :
    (send_audio_twilio_media_stream (fun j => decide (i ≤ j)) data).length = i
    ∧ (send_audio_twilio_media_stream (fun j => decide (i ≤ j)) data).flatten
        = data.take (i * CHUNK_SIZE)
    ∧ ((send_audio_twilio_media_stream (fun j => decide (i ≤ j)) data).flatten).length
        = i * CHUNK_SIZE := by
  obtain ⟨hsnd, hlen, hflat⟩ := sendFullChunks_interrupt_at data i
    (data.length / CHUNK_SIZE) 0 (by omega) (by omega)
  unfold send_audio_twilio_media_stream
  simp only [hsnd, if_true]
  refine ⟨by simpa using hlen, by simpa using hflat, ?_⟩
  have hbytes : i * CHUNK_SIZE ≤ data.length := by
    simp only [CHUNK_SIZE] at h ⊢
    omega
  rw [show (sendFullChunks (fun k => decide (i ≤ k)) data 0
      (data.length / CHUNK_SIZE)).1.flatten = data.take (i * CHUNK_SIZE)
    from by simpa using hflat]
  simp [hbytes]

/-- C3 witness: a 16001-byte payload interrupted before full chunk 1 sends
exactly one frame of 8000 bytes. -/
theorem send_interrupted_spec_witness :
    1 < (List.replicate 16001 0).length / CHUNK_SIZE
    ∧ (send_audio_twilio_media_stream (fun j => decide (1 ≤ j))
        (List.replicate 16001 0)).length = 1
    ∧ ((send_audio_twilio_media_stream (fun j => decide (1 ≤ j))
        (List.replicate 16001 0)).flatten).length = 1 * CHUNK_SIZE :=
  ⟨by rw [List.length_replicate]; decide,
    (send_interrupted_spec (List.replicate 16001 0) 1
      (by rw [List.length_replicate]; decide)).1,
    (send_interrupted_spec (List.replicate 16001 0) 1
      (by rw [List.length_replicate]; decide)).2.2⟩

/- Merge-sort lemmas for the recorder. -/

lemma insertSegment_perm (x : Segment) (l : List Segment) :
    List.Perm (insertSegment x l) (x :: l) := by
  induction l with
  | nil => exact List.Perm.refl _
  | cons y ys ih =>
    unfold insertSegment
    split
    · exact List.Perm.refl _
    · exact (List.Perm.cons y ih).trans (List.Perm.swap x y ys)

lemma sortSegments_perm (l : List Segment) : List.Perm (sortSegments l) l := by
  induction l with
  | nil => exact List.Perm.refl _
  | cons x xs ih =>
    exact (insertSegment_perm x (sortSegments xs)).trans (List.Perm.cons x ih)

lemma insertSegment_sorted (x : Segment) (l : List Segment)
    (h : l.Pairwise segLE) : (insertSegment x l).Pairwise segLE := by
  induction l with
  | nil => simp [insertSegment, segLE]
  | cons y ys ih =>
    have h' := List.pairwise_cons.mp h
    unfold insertSegment
    split
    case isTrue hxy =>
      refine List.Pairwise.cons ?_ h
      intro z hz
      rcases List.mem_cons.mp hz with rfl | hz
      · exact hxy
      · exact le_trans hxy (h'.1 z hz)
    case isFalse hxy =>
      refine List.Pairwise.cons ?_ (ih h'.2)
      intro z hz
      rcases List.mem_cons.mp ((insertSegment_perm x ys).mem_iff.mp hz) with rfl | hz
      · exact le_of_not_le hxy
      · exact h'.1 z hz

lemma sortSegments_sorted (l : List Segment) : (sortSegments l).Pairwise segLE := by
  induction l with
  | nil => exact List.Pairwise.nil
  | cons x xs ih => exact insertSegment_sorted x (sortSegments xs) ih

/-- C6: finalization merges the two per-direction buffers into one sequence
that is non-decreasing in timestamp and is a permutation of the combined
segments, and concatenates the raw bytes in that merged order; on inbound
timestamps 1, 3, 5 and outbound 2, 4 the merged order is 1, 2, 3, 4, 5 and
the bytes concatenate accordingly. -/
theorem combine_audio_streams_merge_spec :
    (∀ rd : RecordingData,
      (combinedSegments rd).Pairwise segLE
      ∧ (combinedSegments rd).Perm (rd.user_audio ++ rd.ai_audio)
      ∧ combine_audio_streams rd = ((combinedSegments rd).map Segment.data).flatten)
    ∧ (combinedSegments exampleRecording).map Segment.timestamp = [1, 2, 3, 4, 5]
    ∧ combine_audio_streams exampleRecording = [10, 20, 30, 40, 50] :=
  ⟨fun _ => ⟨sortSegments_sorted _, sortSegments_perm _, rfl⟩, by decide, by decide⟩

/-- C10: `add_user_audio` and `add_ai_audio` are silent no-ops whenever no
active recording exists for the call — both when recording never started and
immediately after `stop_recording` — leaving the recorder state unchanged. -/
theorem add_audio_inactive_noop (st : RecorderState) (call_sid : String)
    (dataBytes : List Nat) (now tm : ℚ) :
    (st.active_recordings call_sid = none →
      add_user_audio call_sid dataBytes now st = st
      ∧ add_ai_audio call_sid dataBytes now st = st)
    ∧ (stop_recording call_sid tm st).2.active_recordings call_sid = none
    ∧ add_user_audio call_sid dataBytes now (stop_recording call_sid tm st).2
        = (stop_recording call_sid tm st).2
    ∧ add_ai_audio call_sid dataBytes now (stop_recording call_sid tm st).2
        = (stop_recording call_sid tm st).2 := by
  have hnoop : ∀ s : RecorderState, s.active_recordings call_sid = none →
      add_user_audio call_sid dataBytes now s = s
      ∧ add_ai_audio call_sid dataBytes now s = s := by
    intro s hs
    constructor
    · simp [add_user_audio, hs]
    · simp [add_ai_audio, hs]
  have hstop : (stop_recording call_sid tm st).2.active_recordings call_sid = none := by
    unfold stop_recording
    rcases h : st.active_recordings call_sid with _ | rd
    · simpa using h
    · simp [setRecording]
  exact ⟨hnoop st, hstop, (hnoop _ hstop).1, (hnoop _ hstop).2⟩

/-- C10 witness: on a recorder with no active recording for `"CA123"`, both
append operations leave the state unchanged. -/
theorem add_audio_inactive_noop_witness :
    emptyRecorder.active_recordings "CA123" = none
    ∧ add_user_audio "CA123" [7] 1 emptyRecorder = emptyRecorder
    ∧ add_ai_audio "CA123" [8] 2 emptyRecorder = emptyRecorder :=
  ⟨rfl,
    ((add_audio_inactive_noop emptyRecorder "CA123" [7] 1 0).1 rfl).1,
    ((add_audio_inactive_noop emptyRecorder "CA123" [8] 2 0).1 rfl).2⟩

/- Audio cache lemmas and theorems. -/

lemma loadFiles_cache_some (fs : String → Option (List Nat)) :
    ∀ (l : List String) (st : AudioManagerState) (key : String) (d : List Nat),
      (loadFiles fs st l).memory_cache key = some d →
      st.memory_cache key = some d
      ∨ ∃ u ∈ l, toMp3Name u = key ∧ fs u = some d := by
  intro l
  induction l with
  | nil => intro st key d h; exact Or.inl h
  | cons u rest ih =>
    intro st key d h
    simp only [loadFiles] at h
    rcases hu : fs u with _ | b
    · simp only [hu] at h
      rcases ih _ _ _ h with h1 | ⟨v, hv, hkey, hfs⟩
      · exact Or.inl h1
      · exact Or.inr ⟨v, List.mem_cons_of_mem _ hv, hkey, hfs⟩
    · simp only [hu] at h
      rcases ih _ _ _ h with h1 | ⟨v, hv, hkey, hfs⟩
      · simp only [setCache] at h1
        by_cases hk : key = toMp3Name u
        · rw [if_pos hk] at h1
          exact Or.inr ⟨u, List.mem_cons_self u rest, hk.symm, by rw [hu]; exact h1⟩
        · rw [if_neg hk] at h1
          exact Or.inl h1
      · exact Or.inr ⟨v, List.mem_cons_of_mem _ hv, hkey, hfs⟩

/-- C7: every key present in the memory cache after the startup load is
served as a 200 response whose body is exactly the bytes read from the
corresponding `.ulaw` source file at load time; every absent key is served
as a 404 response, and serving is total (never an exception). -/
theorem serve_audio_file_spec (fs : String → Option (List Nat)) (m : Manifest)
    (key : String) :
    (∀ d, (initAudioManager fs m).memory_cache key = some d →
      serve_audio_file (initAudioManager fs m) key = ServeResponse.ok d
      ∧ ∃ u ∈ allManifestFiles m, toMp3Name u = key ∧ fs u = some d)
    ∧ ((initAudioManager fs m).memory_cache key = none →
      serve_audio_file (initAudioManager fs m) key = ServeResponse.notFound) := by
  constructor
  · intro d hd
    refine ⟨by simp [serve_audio_file, hd], ?_⟩
    have hinit : (initAudioManager fs m).memory_cache
        = (loadFiles fs
            { audio_snippets := m, cached_files := [],
              memory_cache := fun _ => none, cache_loaded := false }
            (allManifestFiles m)).memory_cache := by
      simp [initAudioManager, load_all_files_into_memory]
    rw [hinit] at hd
    rcases loadFiles_cache_some fs (allManifestFiles m) _ key d hd with h | h
    · simp at h
    · exact h
  · intro h
    simp [serve_audio_file, h]

/-- C7 witness: the key `"a.mp3"` loaded from `a.ulaw` is served with its
payload; the absent key `"zzz.mp3"` yields the 404 response. -/
theorem serve_audio_file_spec_witness :
    (initAudioManager exampleFs exampleManifest).memory_cache "a.mp3" = some [1, 2, 3]
    ∧ serve_audio_file (initAudioManager exampleFs exampleManifest) "a.mp3"
        = ServeResponse.ok [1, 2, 3]
    ∧ serve_audio_file (initAudioManager exampleFs exampleManifest) "zzz.mp3"
        = ServeResponse.notFound :=
  ⟨by decide,
    ((serve_audio_file_spec exampleFs exampleManifest "a.mp3").1 [1, 2, 3]
      (by decide)).1,
    (serve_audio_file_spec exampleFs exampleManifest "zzz.mp3").2 (by decide)⟩

/-- C2 counterexample: the startup load caches `a.mp3 ↦ [1, 2, 3]`, but
after `clear_memory_cache` a `reload_library` does not bring the payload
back: the load-completion flag is never reset, so the reload is a no-op and
the key stays absent — contradicting the claim that reload after an
explicit clear repopulates the cache. -/
theorem reload_after_clear_counterexample :
    (initAudioManager exampleFs exampleManifest).memory_cache "a.mp3" = some [1, 2, 3]
    ∧ (reload_library exampleFs (clear_memory_cache
        (initAudioManager exampleFs exampleManifest))).memory_cache "a.mp3" = none :=
  ⟨by decide, by decide⟩

/-- C2 (amended): the startup load sets the load-completion flag, and
`reload_library` is a no-op on any state whose flag is set; since
`clear_memory_cache` preserves the flag, reload is a no-op even after an
explicit clear — the cleared cache stays empty instead of being
repopulated. -/
theorem reload_library_noop_spec (fs fs2 : String → Option (List Nat))
    (m : Manifest) (st : AudioManagerState) (h : st.cache_loaded = true) :
    (initAudioManager fs m).cache_loaded = true
    ∧ reload_library fs2 st = st
    ∧ (clear_memory_cache st).cache_loaded = true
    ∧ reload_library fs2 (clear_memory_cache st) = clear_memory_cache st := by
  have hclear : (clear_memory_cache st).cache_loaded = true := by
    simpa [clear_memory_cache] using h
  refine ⟨?_, by simp [reload_library, h], hclear, by simp [reload_library, hclear]⟩
  simp [initAudioManager, load_all_files_into_memory]

/-- C2 witness: the loaded example cache — reload is a no-op both directly
after the startup load and after an explicit clear. -/
theorem reload_library_noop_spec_witness :
    (initAudioManager exampleFs exampleManifest).cache_loaded = true
    ∧ reload_library exampleFs (initAudioManager exampleFs exampleManifest)
        = initAudioManager exampleFs exampleManifest
    ∧ reload_library exampleFs
        (clear_memory_cache (initAudioManager exampleFs exampleManifest))
        = clear_memory_cache (initAudioManager exampleFs exampleManifest) :=
  ⟨(reload_library_noop_spec exampleFs exampleFs exampleManifest
      (initAudioManager exampleFs exampleManifest) (by decide)).1,
    (reload_library_noop_spec exampleFs exampleFs exampleManifest
      (initAudioManager exampleFs exampleManifest) (by decide)).2.1,
    (reload_library_noop_spec exampleFs exampleFs exampleManifest
      (initAudioManager exampleFs exampleManifest) (by decide)).2.2.2⟩

end SonicPrism
